import Mathlib

/-!
Verification development for the swayfire interactive grab machinery
(`src/grab.cpp`) and the node/workspace declarations it relies on
(`src/swayfire.hpp`).

Machine integers of the C++ sources are modelled as unbounded `Int`/`Nat`;
the one place where the `uint32_t -> int` reinterpretation matters
(pointer coordinates delivered by the host) is modelled explicitly by
`int32_of_uint32`.  Edge bitsets (`wlr_edges`) are modelled as a record of
four booleans, one per bit (`WLR_EDGE_TOP/BOTTOM/LEFT/RIGHT`).
-/

/-- Rectangle `wf::geometry_t` with fields `x, y, width, height` (C ints). -/
structure Geometry where
  x : Int
  y : Int
  width : Int
  height : Int
deriving DecidableEq

/-- Point `wf::point_t` with fields `x, y` (C ints). -/
structure Point where
  x : Int
  y : Int
deriving DecidableEq

/-- Pair `wf::dimensions_t` with fields `width, height` (C ints). -/
structure Dimensions where
  width : Int
  height : Int
deriving DecidableEq

/-- Bitset over the four `wlr_edges` bits `WLR_EDGE_TOP`, `WLR_EDGE_BOTTOM`,
`WLR_EDGE_LEFT`, `WLR_EDGE_RIGHT`; each field models one bit of the
`uint32_t` edge mask used by `grab.cpp`. -/
structure Edges where
  top : Bool
  bottom : Bool
  left : Bool
  right : Bool
deriving DecidableEq

/-- The empty edge set `WLR_EDGE_NONE` (mask 0). -/
def Edges.none_ : Edges := ⟨false, false, false, false⟩

/-- Modelled from the spec: the host geometry library's containment test
`geo & p` ("returns true if the given point is inside the given
rectangle", wayfire `geometry.hpp`, an external collaborator of this
repository).  Modelled with the standard half-open pixel-rectangle
semantics; every claim below uses it only at points strictly inside or
strictly outside the rectangle, where any containment convention
coincides. -/
def geo_contains (geo : Geometry) (p : Point) : Bool :=
  decide (geo.x ≤ p.x) && decide (p.x < geo.x + geo.width) &&
  decide (geo.y ≤ p.y) && decide (p.y < geo.y + geo.height)

/-- Margin computation of `resize_calc_resizing_edges`
(`(int)((float)len * RESIZE_MARGIN)` with `RESIZE_MARGIN = 0.35f`,
grab.cpp lines 70, 79-80).  The float product truncated toward zero is
modelled as the exact rational product truncated toward zero
(`tdiv`); the two computations agree on the dimensions appearing in the
claims (in particular `100 -> 35`, since `100.0f * 0.35f` rounds to
`35.0f`). -/
def resize_margin (len : Int) : Int := (len * 35).tdiv 100

/-- The first margin test of `resize_calc_resizing_edges` (grab.cpp lines
82-85): set `WLR_EDGE_LEFT` when the pointer is within the horizontal
margin of the left edge, else `WLR_EDGE_RIGHT` when within the margin of
the right edge, else leave the edge set unchanged. -/
def horiz_margin_edges (geo : Geometry) (p : Point) (hori_margin : Int)
    (e : Edges) : Edges :=
  if p.x - geo.x < hori_margin then { e with left := true }
  else if geo.x + geo.width - p.x < hori_margin then { e with right := true }
  else e

/-- The second margin test of `resize_calc_resizing_edges` (grab.cpp lines
87-90): set `WLR_EDGE_TOP` when the pointer is within the vertical margin
of the top edge, else `WLR_EDGE_BOTTOM` when within the margin of the
bottom edge, else leave the edge set unchanged. -/
def vert_margin_edges (geo : Geometry) (p : Point) (vert_margin : Int)
    (e : Edges) : Edges :=
  if p.y - geo.y < vert_margin then { e with top := true }
  else if geo.y + geo.height - p.y < vert_margin then { e with bottom := true }
  else e

/-- The quadrant fallback of `resize_calc_resizing_edges` (grab.cpp lines
92-102): when no margin selected any edge, pick the horizontal edge by
`(p.x - geo.x) < geo.width / 2` and the vertical edge by
`(p.y - geo.y) < geo.height / 2` (C integer division). -/
def fallback_edges (geo : Geometry) (p : Point) (e : Edges) : Edges :=
  if e = Edges.none_ then
    let e1 :=
      if p.x - geo.x < geo.width.tdiv 2 then { e with left := true }
      else { e with right := true }
    if p.y - geo.y < geo.height.tdiv 2 then { e1 with top := true }
    else { e1 with bottom := true }
  else e

/-- Embedding of `resize_calc_resizing_edges` (grab.cpp lines 71-105):
reject pointers outside the geometry (returning `WLR_EDGE_NONE`), then run
the two margin tests starting from the empty edge set, then the quadrant
fallback if both margins selected nothing. -/
def resize_calc_resizing_edges (geo : Geometry) (p : Point) : Edges :=
  if !(geo_contains geo p) then Edges.none_
  else
    fallback_edges geo p
      (vert_margin_edges geo p (resize_margin geo.height)
        (horiz_margin_edges geo p (resize_margin geo.width) Edges.none_))

/-- Whether `resize_calc_resizing_edges` executes its `LOGE` call
(grab.cpp lines 72-75): exactly when the containment precondition fails. -/
def resize_calc_logs_error (geo : Geometry) (p : Point) : Bool :=
  !(geo_contains geo p)

-- ===== Claims about resize-edge classification =====

/-- C1 (amended): for every pointer position inside the dragged node's
geometry, `resize_calc_resizing_edges` returns a nonempty edge set that
contains at most one horizontal edge (never both LEFT and RIGHT) and at
most one vertical edge (never both TOP and BOTTOM).  (The original
claim's stronger guarantee — exactly one edge per axis — fails: the
margin pass can select an edge on one axis only, skipping the quadrant
fallback; see the counterexample.) -/
theorem resize_edges_axis_classification (geo : Geometry) (p : Point)
    (h : geo_contains geo p = true) :
    resize_calc_resizing_edges geo p ≠ Edges.none_ ∧
    ((resize_calc_resizing_edges geo p).left &&
      (resize_calc_resizing_edges geo p).right) = false ∧
    ((resize_calc_resizing_edges geo p).top &&
      (resize_calc_resizing_edges geo p).bottom) = false := by
  unfold resize_calc_resizing_edges fallback_edges vert_margin_edges
    horiz_margin_edges
  rw [h]
  simp only [Bool.not_true, Bool.false_eq_true, if_false, Edges.none_]
  split_ifs <;> simp_all

/-- Witness for `resize_edges_axis_classification` at geometry
`{0,0,100,100}` and pointer `(10,10)`. -/
theorem resize_edges_axis_classification_witness :
    resize_calc_resizing_edges ⟨0, 0, 100, 100⟩ ⟨10, 10⟩ ≠ Edges.none_ ∧
    ((resize_calc_resizing_edges ⟨0, 0, 100, 100⟩ ⟨10, 10⟩).left &&
      (resize_calc_resizing_edges ⟨0, 0, 100, 100⟩ ⟨10, 10⟩).right) = false ∧
    ((resize_calc_resizing_edges ⟨0, 0, 100, 100⟩ ⟨10, 10⟩).top &&
      (resize_calc_resizing_edges ⟨0, 0, 100, 100⟩ ⟨10, 10⟩).bottom) = false :=
  resize_edges_axis_classification ⟨0, 0, 100, 100⟩ ⟨10, 10⟩ (by decide)

/-- C1 (counterexample): pointer `(10,50)` lies strictly inside geometry
`{0,0,100,100}`, yet the classification returns `{LEFT}` only — an edge
set with a horizontal edge and no vertical edge, refuting the claim that
the result always contains exactly one edge per axis. -/
theorem resize_edges_missing_axis_counterexample :
    geo_contains ⟨0, 0, 100, 100⟩ ⟨10, 50⟩ = true ∧
    resize_calc_resizing_edges ⟨0, 0, 100, 100⟩ ⟨10, 50⟩ =
      ⟨false, false, true, false⟩ ∧
    ((resize_calc_resizing_edges ⟨0, 0, 100, 100⟩ ⟨10, 50⟩).top ||
      (resize_calc_resizing_edges ⟨0, 0, 100, 100⟩ ⟨10, 50⟩).bottom) = false := by
  decide

/-- C2 (amended): for node geometry `{0,0,100,100}`,
`resize_calc_resizing_edges` returns `{LEFT, TOP}` for pointer `(10,10)`
(within the 35-pixel margins on both axes), and `{RIGHT, BOTTOM}` for
pointer `(50,50)`: outside all margins the quadrant fallback's strict `<`
comparison places the exact midpoint in the right/bottom half. -/
theorem resize_edges_scenario :
    resize_calc_resizing_edges ⟨0, 0, 100, 100⟩ ⟨10, 10⟩ =
      ⟨true, false, true, false⟩ ∧
    resize_calc_resizing_edges ⟨0, 0, 100, 100⟩ ⟨50, 50⟩ =
      ⟨false, true, false, true⟩ := by
  decide

/-- C2 (counterexample): at pointer `(50,50)` the classification returns
`{RIGHT, BOTTOM}`, not the claimed `{LEFT, TOP}` — the strict `<` at the
exact midpoint selects the right/bottom half. -/
theorem resize_edges_midpoint_counterexample :
    resize_calc_resizing_edges ⟨0, 0, 100, 100⟩ ⟨50, 50⟩ =
      ⟨false, true, false, true⟩ ∧
    resize_calc_resizing_edges ⟨0, 0, 100, 100⟩ ⟨50, 50⟩ ≠
      ⟨true, false, true, false⟩ := by
  decide

/-- C7: when the pointer lies outside the node's geometry,
`resize_calc_resizing_edges` logs an error and returns `WLR_EDGE_NONE`
without selecting any edge (the embedded function is pure, mirroring the
source function, which takes its arguments by value and mutates no
state). -/
theorem resize_edges_outside_geometry (geo : Geometry) (p : Point)
    (h : geo_contains geo p = false) :
    resize_calc_resizing_edges geo p = Edges.none_ ∧
    resize_calc_logs_error geo p = true := by
  unfold resize_calc_resizing_edges resize_calc_logs_error
  rw [h]
  simp

/-- Witness for `resize_edges_outside_geometry` at geometry
`{0,0,100,100}` and pointer `(200,50)`. -/
theorem resize_edges_outside_geometry_witness :
    resize_calc_resizing_edges ⟨0, 0, 100, 100⟩ ⟨200, 50⟩ = Edges.none_ ∧
    resize_calc_logs_error ⟨0, 0, 100, 100⟩ ⟨200, 50⟩ = true :=
  resize_edges_outside_geometry ⟨0, 0, 100, 100⟩ ⟨200, 50⟩ (by decide)

-- ===== Grab state machine =====

/-- Reinterpretation of a `uint32_t` value as a C `int` (two's complement),
as performed by the `(int)x` casts on pointer coordinates in
`ActiveMove::pointer_motion` and `ActiveResize::pointer_motion`. -/
def int32_of_uint32 (n : Nat) : Int :=
  if n < 2 ^ 31 then (n : Int) else (n : Int) - 2 ^ 32

/-- Conversion of a C `int32_t` value to `uint32_t` (two's complement), as
performed by the implicit conversion when the touch callback forwards its
`int32_t` coordinates to `pointer_motion(uint32_t, uint32_t)`. -/
def uint32_of_int32 (x : Int) : Nat :=
  (x % (2 ^ 32 : Int)).toNat

/-- Value of `WLR_BUTTON_RELEASED` in `wlr/types/wlr_pointer.h`. -/
def WLR_BUTTON_RELEASED : Nat := 0

/-- State recorded by `ActiveMove::construct` (grab.cpp lines 52-66): the
dragged node's geometry and the absolute cursor position at drag start. -/
structure ActiveMoveState where
  original_geo : Geometry
  pointer_start : Point
deriving DecidableEq

/-- Embedding of `ActiveMove::pointer_motion` (grab.cpp lines 45-50):
returns the geometry passed to `dragged->set_geometry` — the start
geometry with its `x`/`y` offset by the pointer displacement. -/
def ActiveMove.pointer_motion (s : ActiveMoveState) (x y : Nat) : Geometry :=
  { s.original_geo with
    x := s.original_geo.x + (int32_of_uint32 x - s.pointer_start.x),
    y := s.original_geo.y + (int32_of_uint32 y - s.pointer_start.y) }

/-- State recorded by `ActiveResize::construct` (grab.cpp lines 123-142):
the dragged node's geometry, the cursor position at drag start and the
edge set computed by `resize_calc_resizing_edges` at drag entry. -/
structure ActiveResizeState where
  original_geo : Geometry
  pointer_start : Point
  resizing_edges : Edges
deriving DecidableEq

/-- Embedding of `ActiveResize::pointer_motion` (grab.cpp lines 108-121):
returns the `try_resize` request issued on the dragged node — the new
dimensions and the edge set — or `none` when the early return for a zero
displacement on both axes is taken and no request is issued. -/
def ActiveResize.pointer_motion (s : ActiveResizeState) (x y : Nat) :
    Option (Dimensions × Edges) :=
  let dw := int32_of_uint32 x - s.pointer_start.x
  let dh := int32_of_uint32 y - s.pointer_start.y
  if dw = 0 ∧ dh = 0 then none
  else
    some
      (⟨if s.resizing_edges.left then s.original_geo.width - dw
        else s.original_geo.width + dw,
        if s.resizing_edges.top then s.original_geo.height - dh
        else s.original_geo.height + dh⟩,
       s.resizing_edges)

/-- Embedding of `IActiveGrab::try_activate` (grab.cpp lines 16-29).  The
external exclusive-activation arbiter (`output->activate_plugin` and
`grab_interface->grab()`, host compositor calls specified at the boundary
in spec section 6) is modelled by its two boolean outcomes; a granted
`activate_plugin` leaves the plugin activated until
`deactivate_plugin` releases it.  The result is the returned grab object
(`some ()` when `cons()` ran, `none` for a null return) paired with the
plugin-activation state after the call, starting from activation state
`active0`. -/
def IActiveGrab.try_activate (active0 : Bool)
    (activate_granted grab_granted : Bool) : Option Unit × Bool :=
  if activate_granted then
    if grab_granted then (some (), true)
    else (none, false)
  else (none, active0)

/-- Embedding of `IActiveButtonDrag::button` (grab.cpp lines 37-41): the
active grab after the event — cleared exactly when the event's button is
the grab's designated activation button and its state is released. -/
def IActiveButtonDrag.button (deactivate_button : Nat)
    (active_grab : Option Unit) (b state : Nat) : Option Unit :=
  if b = deactivate_button ∧ state = WLR_BUTTON_RELEASED then none
  else active_grab

/-- Embedding of the destructor `IActiveGrab::~IActiveGrab` (grab.cpp
lines 31-33): it calls `deactivate_plugin` unconditionally, so the
plugin-activation state after destruction is released whatever it was
before and whatever state the grab was in. -/
def IActiveGrab.destructor (plugin_active : Bool) : Bool := false

/-- Plugin state touched by grab shutdown: the owned active grab
(`Swayfire::active_grab`) and the plugin-activation token. -/
structure GrabPluginState where
  active_grab : Option Unit
  plugin_active : Bool
deriving DecidableEq

/-- Embedding of `Swayfire::fini_grab_interface` (grab.cpp lines
199-204): resets `active_grab` to null; if a grab was held, destroying it
runs `IActiveGrab::~IActiveGrab`, releasing the activation token. -/
def Swayfire.fini_grab_interface (s : GrabPluginState) : GrabPluginState :=
  match s.active_grab with
  | some _ => ⟨none, IActiveGrab.destructor s.plugin_active⟩
  | none => ⟨none, s.plugin_active⟩

-- ===== Claims about the grab state machine =====

/-- C3: in the Moving state, a pointer-motion event at position `(x, y)`
(any coordinates representable in a C `int`) sets the dragged node's
geometry to the start geometry translated by
`(x - start_x, y - start_y)`, with width and height unchanged. -/
theorem move_motion_translates (s : ActiveMoveState) (x y : Nat)
    (hx : x < 2 ^ 31) (hy : y < 2 ^ 31) :
    ActiveMove.pointer_motion s x y =
      ⟨s.original_geo.x + ((x : Int) - s.pointer_start.x),
       s.original_geo.y + ((y : Int) - s.pointer_start.y),
       s.original_geo.width, s.original_geo.height⟩ := by
  unfold ActiveMove.pointer_motion int32_of_uint32
  rw [if_pos hx, if_pos hy]

/-- Witness for `move_motion_translates`: start geometry `{5,6,30,40}`,
pointer start `(12,15)`, motion to `(20,9)`. -/
theorem move_motion_translates_witness :
    ActiveMove.pointer_motion ⟨⟨5, 6, 30, 40⟩, ⟨12, 15⟩⟩ 20 9 =
      ⟨5 + ((20 : Int) - 12), 6 + ((9 : Int) - 15), 30, 40⟩ :=
  move_motion_translates ⟨⟨5, 6, 30, 40⟩, ⟨12, 15⟩⟩ 20 9 (by decide) (by decide)

/-- C4 (amended): in the Resizing state, a pointer-motion event whose
displacement `(dw, dh)` from drag start is nonzero on at least one axis
requests `try_resize` on the dragged node with new width
`original width - dw` if the LEFT edge is moving, else
`original width + dw` — symmetrically for height with the TOP edge — and
passes the edge set computed at drag entry.  (The original claim's
"every pointer-motion event" fails: a motion event with zero displacement
on both axes issues no request; see the counterexample.) -/
theorem resize_motion_request (s : ActiveResizeState) (x y : Nat)
    (hx : x < 2 ^ 31) (hy : y < 2 ^ 31)
    (hmove : ¬((x : Int) - s.pointer_start.x = 0 ∧
               (y : Int) - s.pointer_start.y = 0)) :
    ActiveResize.pointer_motion s x y =
      some
        (⟨if s.resizing_edges.left then
            s.original_geo.width - ((x : Int) - s.pointer_start.x)
          else s.original_geo.width + ((x : Int) - s.pointer_start.x),
          if s.resizing_edges.top then
            s.original_geo.height - ((y : Int) - s.pointer_start.y)
          else s.original_geo.height + ((y : Int) - s.pointer_start.y)⟩,
         s.resizing_edges) := by
  unfold ActiveResize.pointer_motion int32_of_uint32
  rw [if_pos hx, if_pos hy]
  exact if_neg hmove

/-- Witness for `resize_motion_request`: geometry `{0,0,100,100}`, edges
`{LEFT, TOP}`, pointer start `(40,40)`, motion to `(38,45)`. -/
theorem resize_motion_request_witness :
    ActiveResize.pointer_motion
        ⟨⟨0, 0, 100, 100⟩, ⟨40, 40⟩, ⟨true, false, true, false⟩⟩ 38 45 =
      some
        (⟨if (⟨true, false, true, false⟩ : Edges).left then
            (100 : Int) - ((38 : Int) - 40) else (100 : Int) + ((38 : Int) - 40),
          if (⟨true, false, true, false⟩ : Edges).top then
            (100 : Int) - ((45 : Int) - 40) else (100 : Int) + ((45 : Int) - 40)⟩,
         ⟨true, false, true, false⟩) :=
  resize_motion_request
    ⟨⟨0, 0, 100, 100⟩, ⟨40, 40⟩, ⟨true, false, true, false⟩⟩ 38 45
    (by decide) (by decide) (by decide)

/-- C4 (counterexample): a pointer-motion event at exactly the drag-start
position (displacement `(0,0)`) issues no `try_resize` request at all —
in particular not the request with unchanged dimensions that the claim,
read over every motion event, would predict. -/
theorem resize_motion_zero_counterexample :
    ActiveResize.pointer_motion
        ⟨⟨0, 0, 100, 100⟩, ⟨40, 40⟩, ⟨true, false, true, false⟩⟩ 40 40 =
      none ∧
    ActiveResize.pointer_motion
        ⟨⟨0, 0, 100, 100⟩, ⟨40, 40⟩, ⟨true, false, true, false⟩⟩ 40 40 ≠
      some (⟨100, 100⟩, ⟨true, false, true, false⟩) := by
  decide

/-- C5: `IActiveGrab::try_activate` returns a grab object exactly when
both the plugin activation and the grab request are granted; when plugin
activation is denied it returns null with the activation state unchanged;
and in the partial-failure case (activation granted, grab denied) the
activation is released before returning null. -/
theorem try_activate_gating :
    ∀ (a g2 : Bool),
      IActiveGrab.try_activate a false g2 = (none, a) ∧
      IActiveGrab.try_activate a true false = (none, false) ∧
      IActiveGrab.try_activate a true true = (some (), true) ∧
      ∀ g1, ((IActiveGrab.try_activate a g1 g2).fst.isSome = (g1 && g2)) := by
  decide

/-- C6: a button event clears the active grab if and only if its button
is the grab's designated activation button and its state is released
(`WLR_BUTTON_RELEASED`); destruction of the grab object releases the
plugin activation whatever its prior state; and
`Swayfire::fini_grab_interface` clears the active grab, releasing the
activation token through the destructor whenever a grab was held. -/
theorem grab_release_semantics :
    ∀ (db b st : Nat) (t : Bool),
      (IActiveButtonDrag.button db (some ()) b st = none ↔
        b = db ∧ st = WLR_BUTTON_RELEASED) ∧
      IActiveGrab.destructor t = false ∧
      Swayfire.fini_grab_interface ⟨some (), t⟩ = ⟨none, false⟩ ∧
      Swayfire.fini_grab_interface ⟨none, t⟩ = ⟨none, t⟩ := by
  intro db b st t
  refine ⟨?_, rfl, rfl, rfl⟩
  unfold IActiveButtonDrag.button
  split_ifs with h <;> simp [h]

-- ===== Node id assignment =====

/-- Embedding of the id assignment in `INode::INode` (swayfire.hpp lines
186-189) reading one instance of the 32-bit `static uint id_counter`
(swayfire.hpp lines 171-172): a construction returns the assigned
`node_id` (the current counter value) together with the incremented
counter, where `id_counter++` wraps modulo `2 ^ 32` as `unsigned int`
arithmetic does.  Because `static` at namespace scope in a header has
internal linkage, each translation unit including the header holds its
own counter instance (zero-initialized); this models constructions going
through a single such instance. -/
def INode.construct (id_counter : Nat) : Nat × Nat :=
  (id_counter, (id_counter + 1) % 2 ^ 32)

/-- The ids handed out by a sequence of `n` node constructions going
through a single `id_counter` instance starting at value `c`, in
construction order. -/
def ids_of_constructions : Nat → Nat → List Nat
  | _, 0 => []
  | c, Nat.succ n =>
    (INode.construct c).fst :: ids_of_constructions (INode.construct c).snd n

/-- The `k`-th constructed node receives id `(c + k) % 2 ^ 32`. -/
theorem ids_of_constructions_getD (n : Nat) :
    ∀ (c k : Nat), k < n → c < 2 ^ 32 →
      (ids_of_constructions c n).getD k 0 = (c + k) % 2 ^ 32 := by
  induction n with
  | zero => intro c k hk hc; omega
  | succ m ih =>
    intro c k hk hc
    have h32 : (2 : Nat) ^ 32 = 4294967296 := by norm_num
    cases k with
    | zero =>
      have hmod : (c + 0) % 2 ^ 32 = c := by
        rw [h32]; rw [h32] at hc; omega
      rw [hmod]
      rfl
    | succ j =>
      have hj : j < m := by omega
      have hc2 : (c + 1) % 2 ^ 32 < 2 ^ 32 := Nat.mod_lt _ (by norm_num)
      have hrec := ih ((c + 1) % 2 ^ 32) j hj hc2
      have heq : (ids_of_constructions c (m + 1)).getD (j + 1) 0 =
          (ids_of_constructions ((c + 1) % 2 ^ 32) m).getD j 0 := rfl
      rw [heq, hrec, h32]
      omega

/-- C8 (amended): within a single `id_counter` instance starting from its
zero-initialized value, the first `2 ^ 32` node constructions receive
strictly increasing, pairwise distinct ids — for construction positions
`i < j < n` with `n ≤ 2 ^ 32`, the id assigned at position `i` is
strictly smaller than (in particular different from) the id assigned at
position `j`.  (The original claim's unbounded, process-wide "never
reused" fails: the 32-bit counter wraps after `2 ^ 32` constructions —
see the counterexample — and each translation unit has its own counter
instance, so uniqueness is per-instance, not process-wide.) -/
theorem node_ids_unique_and_monotone (n i j : Nat)
    (hij : i < j) (hj : j < n) (hn : n ≤ 2 ^ 32) :
    (ids_of_constructions 0 n).getD i 0 < (ids_of_constructions 0 n).getD j 0 ∧
    (ids_of_constructions 0 n).getD i 0 ≠
      (ids_of_constructions 0 n).getD j 0 := by
  have hi := ids_of_constructions_getD n 0 i (by omega) (by norm_num)
  have hjj := ids_of_constructions_getD n 0 j hj (by norm_num)
  have h32 : (2 : Nat) ^ 32 = 4294967296 := by norm_num
  rw [h32] at hi hjj hn
  omega

/-- Witness for `node_ids_unique_and_monotone`: three constructions from
counter 0, positions 0 and 2. -/
theorem node_ids_unique_and_monotone_witness :
    (ids_of_constructions 0 3).getD 0 0 < (ids_of_constructions 0 3).getD 2 0 ∧
    (ids_of_constructions 0 3).getD 0 0 ≠ (ids_of_constructions 0 3).getD 2 0 :=
  node_ids_unique_and_monotone 3 0 2 (by decide) (by decide) (by norm_num)

/-- C8 (counterexample): node ids are reused once the 32-bit counter
wraps — in a sequence of `2 ^ 32 + 1` constructions through one counter
instance, the construction at position `2 ^ 32` receives the same id (0)
as the construction at position 0, refuting "never reused" and
process-wide uniqueness. -/
theorem node_ids_wrap_counterexample :
    (ids_of_constructions 0 (2 ^ 32 + 1)).getD (2 ^ 32) 0 =
      (ids_of_constructions 0 (2 ^ 32 + 1)).getD 0 0 ∧
    (2 ^ 32 : Nat) ≠ 0 := by
  have h1 := ids_of_constructions_getD (2 ^ 32 + 1) 0 (2 ^ 32)
    (by omega) (by norm_num)
  have h2 := ids_of_constructions_getD (2 ^ 32 + 1) 0 0 (by omega) (by norm_num)
  rw [h1, h2]
  norm_num

-- ===== Touch motion forwarding =====

/-- Embedding of the touch motion callback installed by
`Swayfire::init_grab_interface` (grab.cpp lines 161-165): returns the
`(x, y)` pair forwarded to `active_grab->pointer_motion` (as the
`uint32_t` values produced by the implicit `int32_t` conversions), or
`none` when no call is made — that is, when no grab is active or the
touch point id differs from 1. -/
def touch_motion_callback (active_grab : Option Unit) (id x y : Int) :
    Option (Nat × Nat) :=
  if active_grab.isSome = true ∧ id = 1 then
    some (uint32_of_int32 x, uint32_of_int32 y)
  else none

/-- C9: while a grab is active, a touch-motion event from the single
tracked touch point (id 1) is forwarded to the active grab's
`pointer_motion` with its `(x, y)` coordinates (any nonnegative
coordinates representable in an `int32_t`); touch-motion events from any
other touch point, or arriving while no grab is active, have no
effect. -/
theorem touch_motion_forwarding (id x y : Int)
    (hx0 : 0 ≤ x) (hx1 : x < 2 ^ 31) (hy0 : 0 ≤ y) (hy1 : y < 2 ^ 31) :
    touch_motion_callback (some ()) 1 x y = some (x.toNat, y.toNat) ∧
    (∀ g : Option Unit, id ≠ 1 → touch_motion_callback g id x y = none) ∧
    touch_motion_callback none id x y = none := by
  refine ⟨?_, ?_, ?_⟩
  · simp only [touch_motion_callback, uint32_of_int32, Option.isSome_some,
      true_and, if_pos, Option.some.injEq, Prod.mk.injEq]
    constructor <;> omega
  · intro g hid
    simp [touch_motion_callback, hid]
  · simp [touch_motion_callback]

/-- Witness for `touch_motion_forwarding`: coordinates `(7, 9)`, other
touch point id 5. -/
theorem touch_motion_forwarding_witness :
    touch_motion_callback (some ()) 1 7 9 =
      some ((7 : Int).toNat, (9 : Int).toNat) ∧
    (∀ g : Option Unit, (5 : Int) ≠ 1 → touch_motion_callback g 5 7 9 = none) ∧
    touch_motion_callback none 5 7 9 = none :=
  touch_motion_forwarding 5 7 9 (by decide) (by decide) (by decide) (by decide)

-- ===== Floating-node grab activation =====

/-- Walk `INode::find_floating_parent` over a chain of floating flags:
the first argument is the current node's flag, the second the flags of
its ancestors from nearest to root; the result identifies the first
floating node along the chain and the ancestors above it. -/
def find_floating_parent_aux : Bool → List Bool → Option (Bool × List Bool)
  | true, anc => some (true, anc)
  | false, [] => none
  | false, a :: rest => find_floating_parent_aux a rest

/-- Abstraction of an `INode` for the upward floating-parent traversal:
its own `floating` flag and the `floating` flags of its ancestor nodes,
nearest parent first (the chain ends where `parent` is no longer a node,
e.g. at the workspace). -/
structure NodeChain where
  floating : Bool
  ancestors : List Bool
deriving DecidableEq

/-- Modelled from the spec: `INode::find_floating_parent` is declared in
swayfire.hpp (lines 241-243: "Return this node if it's floating or
traverse the tree upward to find a floating parent") but its definition
is not among the sources.  Returns this node if it is floating, else
recurses on the parent, with `none` when the chain ends without a
floating node. -/
def NodeChain.find_floating_parent (n : NodeChain) : Option NodeChain :=
  (find_floating_parent_aux n.floating n.ancestors).map
    (fun q => ⟨q.fst, q.snd⟩)

/-- Embedding of `SwayfireWorkspaceImpl::view_movable` (swayfire.hpp
lines 584-589): a view is movable when it carries `ViewData` (here: a
node abstraction is attached) and its node is floating. -/
def SwayfireWorkspaceImpl.view_movable (vdata : Option NodeChain) : Bool :=
  match vdata with
  | some node => node.floating
  | none => false

/-- Embedding of `SwayfireWorkspaceImpl::view_resizable` (swayfire.hpp
lines 591-596): identical logic to `view_movable`. -/
def SwayfireWorkspaceImpl.view_resizable (vdata : Option NodeChain) : Bool :=
  match vdata with
  | some node => node.floating
  | none => false

/-- Embedding of the `on_move_activate` handler installed by
`Swayfire::init_grab_interface` (grab.cpp lines 167-179).  Input: the
cursor-focused view (`none` when there is none), which may carry
`ViewData` holding its node, and the outcome of the grab-construction
arbitration (`ActiveMove::construct` returning non-null).  Output: the
dragged node of the newly constructed grab (`none` when no grab starts)
and the handler's boolean return value. -/
def Swayfire.on_move_activate :
    Option (Option NodeChain) → Bool → Option NodeChain × Bool
  | some (some node), grab_granted =>
    (match node.find_floating_parent with
     | some fp => if grab_granted then (some fp, true) else (none, false)
     | none => (none, false))
  | _, _ => (none, false)

/-- Embedding of the `on_resize_activate` handler installed by
`Swayfire::init_grab_interface` (grab.cpp lines 181-193); its logic is
identical to `on_move_activate` with `ActiveResize::construct` in place
of `ActiveMove::construct`. -/
def Swayfire.on_resize_activate :
    Option (Option NodeChain) → Bool → Option NodeChain × Bool
  | some (some node), grab_granted =>
    (match node.find_floating_parent with
     | some fp => if grab_granted then (some fp, true) else (none, false)
     | none => (none, false))
  | _, _ => (none, false)

/-- The node found by `find_floating_parent_aux` is floating. -/
theorem find_floating_parent_aux_floating :
    ∀ (l : List Bool) (f : Bool) (q : Bool × List Bool),
      find_floating_parent_aux f l = some q → q.fst = true := by
  intro l
  induction l with
  | nil =>
    intro f q h
    cases f with
    | true =>
      have hq : (true, ([] : List Bool)) = q := Option.some.inj h
      rw [← hq]
    | false => simp [find_floating_parent_aux] at h
  | cons a rest ih =>
    intro f q h
    cases f with
    | true =>
      have hq : (true, a :: rest) = q := Option.some.inj h
      rw [← hq]
    | false => exact ih a q h

/-- The node returned by `find_floating_parent` is floating. -/
theorem find_floating_parent_floating (n m : NodeChain)
    (h : n.find_floating_parent = some m) : m.floating = true := by
  unfold NodeChain.find_floating_parent at h
  cases hq : find_floating_parent_aux n.floating n.ancestors with
  | none => rw [hq] at h; exact absurd h (by simp)
  | some q =>
    rw [hq] at h
    have hm : (⟨q.fst, q.snd⟩ : NodeChain) = m := Option.some.inj h
    have hf := find_floating_parent_aux_floating n.ancestors n.floating q hq
    rw [← hm]
    exact hf

/-- C10: an interactive move or resize grab only ever starts on a
floating node — whenever a handler constructs a grab, its dragged node is
the floating ancestor found by `find_floating_parent` (and is indeed
floating); when the focused view has no floating ancestor, or there is no
focused view or no `ViewData`, the handlers return false and no grab
starts; `on_resize_activate` behaves identically to `on_move_activate`;
and `view_movable`/`view_resizable` report true exactly when the view's
node is floating. -/
theorem floating_grab_invariant :
    ∀ (focus : Option (Option NodeChain)) (g : Bool),
      (∀ d, (Swayfire.on_move_activate focus g).fst = some d →
        d.floating = true) ∧
      (∀ node, focus = some (some node) → node.find_floating_parent = none →
        Swayfire.on_move_activate focus g = (none, false)) ∧
      (∀ node fp, focus = some (some node) →
        node.find_floating_parent = some fp →
        Swayfire.on_move_activate focus true = (some fp, true)) ∧
      Swayfire.on_move_activate none g = (none, false) ∧
      Swayfire.on_move_activate (some none) g = (none, false) ∧
      Swayfire.on_resize_activate focus g = Swayfire.on_move_activate focus g ∧
      (∀ n : NodeChain, SwayfireWorkspaceImpl.view_movable (some n) =
        n.floating) ∧
      SwayfireWorkspaceImpl.view_movable none = false ∧
      (∀ vd, SwayfireWorkspaceImpl.view_resizable vd =
        SwayfireWorkspaceImpl.view_movable vd) := by
  intro focus g
  refine ⟨?_, ?_, ?_, rfl, rfl, ?_, fun n => rfl, rfl, ?_⟩
  · intro d hd
    match focus with
    | none => simp [Swayfire.on_move_activate] at hd
    | some none => simp [Swayfire.on_move_activate] at hd
    | some (some node) =>
      simp only [Swayfire.on_move_activate] at hd
      cases hq : node.find_floating_parent with
      | none => simp [hq] at hd
      | some fp =>
        cases g with
        | false => simp [hq] at hd
        | true =>
          simp [hq] at hd
          rw [← hd]
          exact find_floating_parent_floating node fp hq
  · intro node hfocus hq
    subst hfocus
    simp [Swayfire.on_move_activate, hq]
  · intro node fp hfocus hq
    subst hfocus
    simp [Swayfire.on_move_activate, hq]
  · match focus with
    | none => rfl
    | some none => rfl
    | some (some node) => rfl
  · intro vd
    match vd with
    | none => rfl
    | some n => rfl

/-- Witness for `floating_grab_invariant`: a non-floating node whose
parent is floating; the move handler starts a grab dragging that floating
parent. -/
theorem floating_grab_invariant_witness :
    Swayfire.on_move_activate (some (some ⟨false, [true]⟩)) true =
      (some ⟨true, []⟩, true) :=
  (floating_grab_invariant (some (some ⟨false, [true]⟩)) true).2.2.1
    ⟨false, [true]⟩ ⟨true, []⟩ rfl (by decide)
